import Mathlib

/-!
Verification of the page-snapshot / element-reference model and the
tool-execution pipeline of a Selenium-based MCP server
(`selenium_mcp/context.py`, `selenium_mcp/tool_base.py`,
`selenium_mcp/tools/recording.py`, `selenium_mcp/tools/snapshot.py`).

The Python source is shallowly embedded: Selenium `WebElement` probing is
modelled as a record of the attribute values the code reads, together with
boolean flags recording whether a given probe raises (stale element /
session loss), since every such read in the source sits inside a
`try/except` block.  Python dictionaries keyed by reference strings become
insertion-ordered association lists; Python truthiness of optional strings
(`None` and `""` are both falsy) is modelled explicitly.
-/

namespace SeleniumMcp

/-! ### Python string/truthiness helpers -/

/-- Truthiness of a Python `Optional[str]`: `None` and `""` are falsy. -/
def pyTruthy : Option String → Bool
  | none => false
  | some s => s ≠ ""

/-- Python `x or ""` for an `Optional[str]` value. -/
def optStr : Option String → String
  | none => ""
  | some s => s

/-- First truthy string of a Python `a or b or c or ... or ""` chain. -/
def firstTruthy : List String → String
  | [] => ""
  | s :: rest => if s ≠ "" then s else firstTruthy rest

/-- Whether `pat` occurs at the start of `s` (on character lists). -/
def charsStartWith : List Char → List Char → Bool
  | _, [] => true
  | [], _ :: _ => false
  | a :: as, b :: bs => a == b && charsStartWith as bs

/-- Whether `pat` occurs somewhere inside `s` (on character lists);
Python's `pat in s` for strings. -/
def charsContain : List Char → List Char → Bool
  | [], pat => pat.isEmpty
  | s@(_ :: rest), pat => charsStartWith s pat || charsContain rest pat

/-- Python `pat in s` for strings. -/
def strContains (s pat : String) : Bool :=
  charsContain s.data pat.data

/-- Python `str.lower()` (ASCII case folding, which is all the source
compares against). -/
def pyLower (s : String) : String :=
  ⟨s.data.map Char.toLower⟩

/-- Python `str.strip()`: drop leading and trailing whitespace. -/
def pyStrip (s : String) : String :=
  ⟨((s.data.dropWhile Char.isWhitespace).reverse.dropWhile Char.isWhitespace).reverse⟩

/-- Python slicing `s[:n]` (by code point). -/
def pyTakeChars (s : String) (n : Nat) : String :=
  ⟨s.data.take n⟩

/-- Python `s.replace('"', '\\"')` as used at `context.py:59` (the pattern
is the single character `"`). -/
def escapeQuotes (s : String) : String :=
  ⟨s.data.flatMap (fun c => if c == '"' then ['\\', '"'] else [c])⟩

/-- Python `sep.join(parts)`. -/
def pyJoin (sep : String) : List String → String
  | [] => ""
  | [a] => a
  | a :: rest => a ++ sep ++ pyJoin sep rest

/-- Helper for `pySplit`: collect maximal non-whitespace runs. -/
def wordsAux : List Char → List Char → List String
  | [], cur => if cur.isEmpty then [] else [⟨cur.reverse⟩]
  | c :: cs, cur =>
    if c.isWhitespace then
      if cur.isEmpty then wordsAux cs [] else ⟨cur.reverse⟩ :: wordsAux cs []
    else wordsAux cs (c :: cur)

/-- Python `str.split()` with no separator: split on whitespace runs,
dropping empty pieces. -/
def pySplit (s : String) : List String :=
  wordsAux s.data []

theorem charsStartWith_self_append : ∀ (b post : List Char),
    charsStartWith (b ++ post) b = true := by
  intro b
  induction b with
  | nil => intro post; cases post <;> rfl
  | cons c cs ih =>
    intro post
    simp [charsStartWith, ih post]

theorem charsContain_nil : ∀ (s : List Char), charsContain s [] = true
  | [] => rfl
  | _ :: _ => by rw [charsContain]; simp [charsStartWith]

theorem charsContain_append : ∀ (pre b post : List Char),
    charsContain (pre ++ b ++ post) b = true := by
  intro pre b post
  induction pre with
  | nil =>
    simp only [List.nil_append]
    cases b with
    | nil => exact charsContain_nil post
    | cons c cs =>
      rw [List.cons_append, charsContain]
      have h := charsStartWith_self_append (c :: cs) post
      rw [List.cons_append] at h
      simp [h]
  | cons c cs ih =>
    rw [List.cons_append, List.cons_append, charsContain, ih, Bool.or_true]

/-- A string contains any middle part of a three-way concatenation. -/
theorem strContains_append (pre b post : String) :
    strContains (pre ++ b ++ post) b = true := by
  unfold strContains
  rw [String.data_append, String.data_append]
  exact charsContain_append pre.data b.data post.data

/-! ### Injectivity of `Nat.repr`

Needed to show that the references `"e1"`, `"e2"`, … assigned during a
snapshot capture are pairwise distinct.  Proved by exhibiting a decimal
decoder that is a left inverse of `Nat.toDigits 10`. -/

/-- Numeric value of a decimal digit character. -/
def digitVal (c : Char) : Nat := c.toNat - '0'.toNat

/-- Decode a big-endian list of decimal digit characters. -/
def decodeDigits : List Char → Nat
  | [] => 0
  | c :: cs => digitVal c * 10 ^ cs.length + decodeDigits cs

theorem digitVal_digitChar {n : Nat} (h : n < 10) :
    digitVal (Nat.digitChar n) = n := by
  interval_cases n <;> rfl

theorem toDigitsCore_ten_decode : ∀ (fuel n : Nat) (ds : List Char), n < fuel →
    decodeDigits (Nat.toDigitsCore 10 fuel n ds) =
      n * 10 ^ ds.length + decodeDigits ds := by
  intro fuel
  induction fuel with
  | zero => intro n ds h; exact absurd h (Nat.not_lt_zero n)
  | succ f ih =>
    intro n ds h
    rw [Nat.toDigitsCore]
    by_cases hdiv : n / 10 = 0
    · have hn : n < 10 := by omega
      simp only [hdiv, if_true]
      rw [decodeDigits]
      have : n % 10 = n := Nat.mod_eq_of_lt hn
      rw [this, digitVal_digitChar hn]
    · simp only [hdiv, if_false]
      have hlt : n / 10 < f := by
        have h1 : n / 10 < n := Nat.div_lt_self (by omega) (by omega)
        omega
      rw [ih (n / 10) (Nat.digitChar (n % 10) :: ds) hlt]
      rw [decodeDigits]
      have hm : n % 10 < 10 := Nat.mod_lt n (by omega)
      rw [digitVal_digitChar hm]
      have hlen : (Nat.digitChar (n % 10) :: ds).length = ds.length + 1 := rfl
      rw [hlen, pow_succ]
      have key : n / 10 * (10 ^ ds.length * 10) + n % 10 * 10 ^ ds.length =
          n * 10 ^ ds.length := by
        have h10 : 10 * (n / 10) + n % 10 = n := Nat.div_add_mod n 10
        calc n / 10 * (10 ^ ds.length * 10) + n % 10 * 10 ^ ds.length
            = (10 * (n / 10) + n % 10) * 10 ^ ds.length := by ring
          _ = n * 10 ^ ds.length := by rw [h10]
      omega

theorem decode_toDigits_ten (n : Nat) :
    decodeDigits (Nat.toDigits 10 n) = n := by
  rw [Nat.toDigits, toDigitsCore_ten_decode (n + 1) n [] (Nat.lt_succ_self n)]
  simp [decodeDigits]

theorem natRepr_injective : Function.Injective Nat.repr := by
  intro m n h
  have hdata : (Nat.repr m).data = (Nat.repr n).data := by rw [h]
  have hm : (Nat.repr m).data = Nat.toDigits 10 m := rfl
  have hn : (Nat.repr n).data = Nat.toDigits 10 n := rfl
  rw [hm, hn] at hdata
  have := congrArg decodeDigits hdata
  rwa [decode_toDigits_ten, decode_toDigits_ten] at this

/-! ### Data model (`context.py`)

`ElementInfo.attributes` in the source is a dict built with exactly the
keys `id`, `role`, `type`, each defaulted to `""` when the DOM attribute is
null; a missing key and the value `""` behave identically under the Python
truthiness tests the source applies (`attributes.get("id")`), so the dict
is modelled as a record of three strings. -/

structure ElementAttrs where
  id : String
  role : String
  type : String
deriving Repr, DecidableEq

structure ElementInfo where
  ref : String
  tag_name : String
  text : Option String
  aria_label : Option String
  is_clickable : Bool
  css_classes : List String
  attributes : ElementAttrs
deriving Repr, DecidableEq

/-- `selenium.webdriver.common.by.By` locator strategies used by the source. -/
inductive By where
  | ID
  | XPATH
  | CSS_SELECTOR
deriving Repr, DecidableEq

/-- The `elements` dict of a snapshot: insertion-ordered `ref ↦ ElementInfo`
association list (Python 3.7+ dicts preserve insertion order). -/
structure PageSnapshot where
  elements : List (String × ElementInfo)
  url : String := ""
  title : String := ""
deriving Repr, DecidableEq

/-- Python `ref in dict` / `dict[ref]` on the association list. -/
def dictGet (d : List (String × ElementInfo)) (k : String) : Option ElementInfo :=
  (d.find? (fun p => p.1 == k)).map (fun p => p.2)

/-- The tag+text XPath built at `context.py:59-60`. -/
def textXpath (tag t : String) : String :=
  "//" ++ tag ++ "[contains(text(), \"" ++ escapeQuotes t ++ "\")]"

/-- The tag+role XPath built at `context.py:65`. -/
def roleXpath (tag role : String) : String :=
  "//" ++ tag ++ "[@role=\"" ++ role ++ "\"]"

/-- The tag+classes CSS selector built at `context.py:70`. -/
def classSelector (tag : String) (classes : List String) : String :=
  tag ++ "." ++ pyJoin "." classes

/-- The degenerate fallback selector at `context.py:78`. -/
def dataRefSelector (ref : String) : String :=
  "[data-ref='" ++ ref ++ "']"

/-- `PageSnapshot.ref_locator` (`context.py:41-78`): build the candidate
selector list in source order and return its head, falling back to the
synthetic `data-ref` selector when the reference is unknown or no
candidate applies. -/
def PageSnapshot.ref_locator (snap : PageSnapshot) (ref : String) : By × String :=
  match dictGet snap.elements ref with
  | some element_info =>
    let selectors : List (By × String) :=
      (if element_info.attributes.id ≠ "" then
        [(By.ID, element_info.attributes.id)] else [])
      ++ (match element_info.text with
          | some t => if t ≠ "" then [(By.XPATH, textXpath element_info.tag_name t)] else []
          | none => [])
      ++ (if element_info.attributes.role ≠ "" then
        [(By.XPATH, roleXpath element_info.tag_name element_info.attributes.role)] else [])
      ++ (if element_info.css_classes ≠ [] then
        [(By.CSS_SELECTOR, classSelector element_info.tag_name element_info.css_classes)]
        else [])
    match selectors with
    | s :: _ => s
    | [] => (By.CSS_SELECTOR, dataRefSelector ref)
  | none => (By.CSS_SELECTOR, dataRefSelector ref)

/-! ### Snapshot capture (`Context.capture_snapshot`, `context.py:155-235`)

A live Selenium `WebElement` is modelled by the values the capture loop
reads from it.  Every per-element read sits inside a `try/except`; the two
flags record whether the reads performed during the interactivity probe
(`context.py:174-196`) resp. during descriptor construction
(`context.py:200-229`) raise.  Since the element may change between the
two phases (the DOM is live), the displayed/enabled state is sampled
separately for each phase. -/

structure WebElement where
  tag_name : String
  role : Option String
  onclick : Option String
  tabindex : Option String
  className : Option String
  aria_label : Option String
  textContent : String
  value : Option String
  title : Option String
  alt : Option String
  id : Option String
  typeAttr : Option String
  displayed : Bool
  enabled : Bool
  displayedAtBuild : Bool
  enabledAtBuild : Bool
  probeFails : Bool
  buildFails : Bool
deriving Repr, DecidableEq

/-- The page the browser currently shows, as the capture loop observes it.
`pageInfoFails` records whether reading `current_url` / `title` or the
`find_elements` enumeration raises (the failures caught by the outer
`try/except` at `context.py:162-235`). -/
structure BrowserPage where
  url : String
  title : String
  domElements : List WebElement
  pageInfoFails : Bool
deriving Repr, DecidableEq

/-- The interactivity test at `context.py:177-189`. -/
def is_interactive (e : WebElement) : Bool :=
  ["button", "input", "a", "select", "textarea"].contains (pyLower e.tag_name)
  || (match e.role with
      | some r => ["button", "link", "menuitem", "tab", "checkbox", "radio"].contains r
      | none => false)
  || e.onclick.isSome
  || e.tabindex.isSome
  || strContains (pyLower (optStr e.className)) "click"
  || strContains (pyLower (optStr e.className)) "btn"

/-- Admission into `interactive_elements` (`context.py:192`), with the
surrounding `try/except: continue` (`context.py:175,195-196`) modelled by
`probeFails`. -/
def qualifies (e : WebElement) : Bool :=
  !e.probeFails && (is_interactive e && (e.displayed && e.enabled))

/-- Accessible-name chain at `context.py:205-212`:
`aria-label or text.strip() or value or title or alt or ""`. -/
def accessibleName (e : WebElement) : String :=
  firstTruthy [optStr e.aria_label, pyStrip e.textContent, optStr e.value,
    optStr e.title, optStr e.alt]

/-- Reference assigned to the element at 0-based enumeration index `i`
(`context.py:202`): `f"e{i+1}"`. -/
def mkRef (i : Nat) : String :=
  "e" ++ Nat.repr (i + 1)

/-- Descriptor construction at `context.py:214-226`. -/
def mkElementInfo (i : Nat) (e : WebElement) : ElementInfo :=
  { ref := mkRef i
    tag_name := pyLower e.tag_name
    text := if accessibleName e ≠ "" then some (pyTakeChars (accessibleName e) 100) else none
    aria_label := e.aria_label
    is_clickable := e.enabledAtBuild && e.displayedAtBuild
    css_classes := if pyTruthy e.className then pySplit (optStr e.className) else []
    attributes :=
      { id := optStr e.id, role := optStr e.role, type := optStr e.typeAttr } }

/-- The descriptor-building loop at `context.py:199-229`: enumerate the
retained elements, skipping any whose descriptor construction raises
(`except: continue` at `context.py:228-229`) — the enumeration counter,
and hence the reference numbering, still advances for skipped elements. -/
def buildSnapshotElements (es : List WebElement) : List (String × ElementInfo) :=
  es.enum.filterMap (fun p =>
    if p.2.buildFails then none else some (mkRef p.1, mkElementInfo p.1 p.2))

/-- The body of the outer `try` at `context.py:162-231`. -/
def captureBody (page : BrowserPage) : Except String PageSnapshot :=
  if page.pageInfoFails then Except.error "invalid session"
  else Except.ok
    { elements := buildSnapshotElements ((page.domElements.filter qualifies).take 100)
      url := page.url
      title := page.title }

/-- The snapshot stored on failure (`context.py:235`):
`PageSnapshot(elements={})` with defaulted url/title. -/
def emptySnapshot : PageSnapshot := { elements := [], url := "", title := "" }

/-- `Context.capture_snapshot` as a function of the observed page: the
outer `except` (`context.py:233-235`) degrades any failure to
`emptySnapshot`. -/
def capture_snapshot (page : BrowserPage) : PageSnapshot :=
  match captureBody page with
  | Except.ok s => s
  | Except.error _ => emptySnapshot

/-! ### Execution context state and recording (`context.py:139-258`) -/

/-- Model of tool-argument values (JSON-ish scalars suffice for the
claims; handlers are opaque in this development). -/
inductive ParamValue where
  | str (s : String)
  | num (n : Int)
  | flag (b : Bool)
deriving Repr, DecidableEq

/-- A raw tool-argument object: ordered field/value pairs. -/
def Params := List (String × ParamValue)
deriving Repr, DecidableEq

/-- One `action_history` entry (`context.py:252-256`). -/
structure ActionRecord where
  tool : String
  params : Params
  timestamp : Nat
deriving Repr, DecidableEq

/-- The mutable state of `Context` relevant to the claims. -/
structure Ctx where
  current_snapshot : Option PageSnapshot
  action_history : List ActionRecord
  recording_enabled : Bool
deriving Repr, DecidableEq

/-- `Context.record_action` (`context.py:249-258`); `now` stands for the
`time.time()` read. -/
def record_action (ctx : Ctx) (tool_name : String) (params : Params) (now : Nat) : Ctx :=
  if ctx.recording_enabled then
    { ctx with action_history :=
        ctx.action_history ++ [{ tool := tool_name, params := params, timestamp := now }] }
  else ctx

/-- The snapshot-replacing assignment `self.current_snapshot = ...`
performed by `capture_snapshot` (`context.py:231,235`). -/
def Ctx.capture (ctx : Ctx) (page : BrowserPage) : Ctx :=
  { ctx with current_snapshot := some (capture_snapshot page) }

/-! ### Tool contract (`tool_base.py`) and the run pipeline (`context.py:260-332`) -/

/-- Model of a pydantic `BaseModel` input schema: the external validation
library, abstracted to the behaviour `run_tool` depends on — constructing
`input_schema(**params)` raises a `ValidationError` naming the offending
field when a required field is missing. -/
structure InputSchema where
  required : List String
deriving Repr, DecidableEq

/-- First required field missing from the argument object, if any. -/
def missingRequired (s : InputSchema) (params : Params) : Option String :=
  s.required.find? (fun f => !(params.any (fun p => p.1 == f)))

/-- Pydantic model construction: `ValidationError` on a missing required
field, otherwise the validated (typed) parameters. -/
def InputSchema.build (s : InputSchema) (params : Params) : Except String Params :=
  match missingRequired s params with
  | some f => Except.error (f ++ "\n  Field required")
  | none => Except.ok params

structure ToolSchemaM where
  name : String
  description : String := ""
  input_schema : InputSchema
  tool_type : String := "readOnly"

/-- `ToolSchema.validate_params` (`tool_base.py:34-39`): re-raise a
validation failure as `ValueError(f"Invalid parameters for {name}: {e}")`. -/
def ToolSchemaM.validate_params (s : ToolSchemaM) (params : Params) : Except String Params :=
  match s.input_schema.build params with
  | Except.ok p => Except.ok p
  | Except.error e => Except.error ("Invalid parameters for " ++ s.name ++ ": " ++ e)

/-- `ToolResult` (`context.py:9-15`).  The deferred action is a closure
over the context: it acts on the live page, may mutate the context state
(e.g. `reset_session.py:64-66`, `agents.py:1013-1014,1142-1143` clear the
action history and toggle recording), and may raise.  It returns
`(outcome, page-after, context-after)`: an `Except.error` outcome is a
raised exception, and — as in Python — the page/context mutations made
before the raise persist.  The Python return value is modelled as a
string payload, which `run_tool` only passes through. -/
structure ToolResultM where
  code : List String
  action : Option (BrowserPage → Ctx → (Except String String) × BrowserPage × Ctx) := none
  capture_snapshot : Bool := true
  wait_for_network : Bool := false

/-- A tool: schema plus `handle` (`tool_base.py:41-55`).  `handle` receives
the context, may raise, and returns a `ToolResult` together with the
context it leaves behind (handlers such as the recording tools mutate
context state synchronously). -/
structure ToolM where
  schema : ToolSchemaM
  handle : Ctx → Params → Except String (ToolResultM × Ctx)

/-- The three shapes of dict `Context.run_tool` returns
(`context.py:316-332`). -/
inductive RunResponse where
  | withAction (text : String) (code : List String) (action_result : String)
  | prepared (text : String) (code : List String)
  | failure (text : String) (error : String)
deriving Repr, DecidableEq

/-- The props bracket list for one element line (`context.py:305-309`). -/
def elementProps (ref : String) (element : ElementInfo) : List String :=
  ["[ref=" ++ ref ++ "]"]
  ++ (if element.attributes.role ≠ "" then ["[role=" ++ element.attributes.role ++ "]"] else [])
  ++ (if !element.is_clickable then ["[disabled]"] else [])

/-- One rendered element line (`context.py:300-312`). -/
def elementLine (ref : String) (element : ElementInfo) : String :=
  "- " ++ element.tag_name
  ++ (match element.text with
      | some t => if t ≠ "" then " \"" ++ t ++ "\"" else ""
      | none => "")
  ++ " " ++ pyJoin " " (elementProps ref element)

/-- The `### Page state` block appended after a successful re-capture
(`context.py:292-314`). -/
def pageStateLines (snap : PageSnapshot) : List String :=
  ["", "### Page state",
    "- Page URL: " ++ snap.url,
    "- Page Title: " ++ snap.title,
    "- Page Snapshot:",
    "```yaml"]
  ++ snap.elements.map (fun p => elementLine p.1 p.2)
  ++ ["```"]

/-- The execution-confirmation block (`context.py:284-288`). -/
def runHeaderLines (code : List String) : List String :=
  ["### Ran Selenium automation", "```python"] ++ code ++ ["```"]

/-- `Context.run_tool` (`context.py:260-332`).  `page` is the live page
the deferred action runs against; `now` is the clock read used by
`record_action`.  The enclosing `try/except` becomes the `Except.error`
branches, each producing the structured failure dict of
`context.py:329-332`. -/
def run_tool (page : BrowserPage) (now : Nat) (tool : ToolM) (arguments : Params)
    (ctx : Ctx) : RunResponse × Ctx :=
  match tool.schema.validate_params arguments with
  | Except.error e =>
    (RunResponse.failure ("❌ " ++ tool.schema.name ++ " failed: " ++ e) e, ctx)
  | Except.ok params =>
    let ctx1 := record_action ctx tool.schema.name arguments now
    match tool.handle ctx1 params with
    | Except.error e =>
      (RunResponse.failure ("❌ " ++ tool.schema.name ++ " failed: " ++ e) e, ctx1)
    | Except.ok (result, ctx2) =>
      match result.action with
      | none =>
        (RunResponse.prepared ("✅ " ++ tool.schema.name ++ " prepared") result.code, ctx2)
      | some act =>
        let out := act page ctx2
        match out.1 with
        | Except.error e =>
          (RunResponse.failure ("❌ " ++ tool.schema.name ++ " failed: " ++ e) e, out.2.2)
        | Except.ok action_result =>
          let page2 := out.2.1
          let ctx3 := if result.capture_snapshot then (out.2.2).capture page2 else out.2.2
          let snapshotLines :=
            if result.capture_snapshot then
              match ctx3.current_snapshot with
              | some snap => pageStateLines snap
              | none => []
            else []
          (RunResponse.withAction
            (pyJoin "\n" (runHeaderLines result.code ++ snapshotLines))
            result.code action_result,
          ctx3)

/-! ### Recording tools (`tools/recording.py`) -/

/-- `StartRecordingTool.handle` (`recording.py:35-43`): enable recording,
clear any previous recordings, return a snapshot-free result. -/
def start_recording_handle (ctx : Ctx) : ToolResultM × Ctx :=
  ({ code := ["Recording started - all browser actions will be tracked"],
     action := none, capture_snapshot := false },
   { ctx with recording_enabled := true, action_history := [] })

/-- `StopRecordingTool.handle` (`recording.py:56-64`): disable recording,
history retained. -/
def stop_recording_handle (ctx : Ctx) : ToolResultM × Ctx :=
  ({ code := ["Recording stopped - captured " ++
        Nat.repr ctx.action_history.length ++ " actions"],
     action := none, capture_snapshot := false },
   { ctx with recording_enabled := false })

/-- `start_recording` as a registered tool (empty pydantic params model). -/
def StartRecordingTool : ToolM :=
  { schema := { name := "start_recording", input_schema := { required := [] } }
    handle := fun ctx _ => Except.ok (start_recording_handle ctx) }

/-- `stop_recording` as a registered tool (empty pydantic params model). -/
def StopRecordingTool : ToolM :=
  { schema := { name := "stop_recording", input_schema := { required := [] } }
    handle := fun ctx _ => Except.ok (stop_recording_handle ctx) }

/-! ### Spec-side definitions (for refinement-style claims) -/

/-- Modelled from the spec (§4.3 step 4c): one line per element in the form
`- <tag> "<accessible_text>" [ref=<reference>] [role=<role if present>]
[disabled if not interactable]`. -/
def specElementLine (ref : String) (el : ElementInfo) : String :=
  "- " ++ el.tag_name
  ++ (match el.text with
      | some t => if t ≠ "" then " \"" ++ t ++ "\"" else ""
      | none => "")
  ++ " " ++ pyJoin " "
      (["[ref=" ++ ref ++ "]"]
        ++ (if el.attributes.role ≠ "" then ["[role=" ++ el.attributes.role ++ "]"] else [])
        ++ (if !el.is_clickable then ["[disabled]"] else []))

/-- Reading the `"text"` key of the dict `run_tool` returns (present in all
three return shapes, `context.py:316-332`). -/
def responseText : RunResponse → String
  | RunResponse.withAction t _ _ => t
  | RunResponse.prepared t _ => t
  | RunResponse.failure t _ => t

/-! ### Shared proof helpers -/

theorem mkRef_injective : Function.Injective mkRef := by
  intro i j h
  have hdata := congrArg String.data h
  rw [mkRef, mkRef, String.data_append, String.data_append] at hdata
  have he : ("e" : String).data = ['e'] := rfl
  rw [he] at hdata
  simp only [List.cons_append, List.nil_append] at hdata
  injection hdata with h1 h2
  have e1 : (Nat.repr (i + 1)).data = Nat.toDigits 10 (i + 1) := rfl
  have e2 : (Nat.repr (j + 1)).data = Nat.toDigits 10 (j + 1) := rfl
  rw [e1, e2] at h2
  have h3 := congrArg decodeDigits h2
  rw [decode_toDigits_ten, decode_toDigits_ten] at h3
  omega

theorem filterMap_eq_map_of_forall {α β : Type} (g : α → Option β) (f : α → β) :
    ∀ (l : List α), (∀ a ∈ l, g a = some (f a)) → l.filterMap g = l.map f := by
  intro l
  induction l with
  | nil => intro _; rfl
  | cons a as ih =>
    intro h
    rw [List.filterMap_cons, h a (List.mem_cons_self a as), List.map_cons,
      ih (fun b hb => h b (List.mem_cons_of_mem a hb))]

theorem snd_mem_of_mem_enumFrom {α : Type} :
    ∀ (l : List α) (n : Nat) (p : Nat × α), p ∈ l.enumFrom n → p.2 ∈ l := by
  intro l
  induction l with
  | nil => intro n p h; simp at h
  | cons a as ih =>
    intro n p h
    rw [List.enumFrom_cons] at h
    rcases List.mem_cons.mp h with h1 | h2
    · rw [h1]; exact List.mem_cons_self a as
    · exact List.mem_cons_of_mem a (ih (n + 1) p h2)

theorem enum_map_fst_eq_range {α : Type} (l : List α) :
    l.enum.map Prod.fst = List.range l.length := by
  rw [List.enum_eq_enumFrom, List.enumFrom_map_fst, List.range_eq_range']

theorem refProp_ne_disabled (x : String) : "[ref=" ++ x ++ "]" ≠ "[disabled]" := by
  intro h
  have h2 := congrArg (fun s : String => s.data[1]?) h
  simp only [String.data_append] at h2
  have h3 : (some 'r' : Option Char) = some 'd' := h2
  exact absurd h3 (by decide)

theorem roleProp_ne_disabled (x : String) : "[role=" ++ x ++ "]" ≠ "[disabled]" := by
  intro h
  have h2 := congrArg (fun s : String => s.data[1]?) h
  simp only [String.data_append] at h2
  have h3 : (some 'r' : Option Char) = some 'd' := h2
  exact absurd h3 (by decide)

/-! ### Concrete fixtures (used by witnesses and counterexamples) -/

/-- A visible, enabled `<button id="go" class="btn primary">Go</button>`. -/
def btnElem : WebElement :=
  { tag_name := "BUTTON", role := none, onclick := none, tabindex := none,
    className := some "btn primary", aria_label := none, textContent := " Go ",
    value := none, title := none, alt := none, id := some "go", typeAttr := none,
    displayed := true, enabled := true, displayedAtBuild := true, enabledAtBuild := true,
    probeFails := false, buildFails := false }

/-- A qualifying element that goes stale between the interactivity probe
and descriptor construction, so its descriptor build raises. -/
def staleElem : WebElement := { btnElem with id := none, buildFails := true }

/-- A visible `<h1 tabindex="0">Welcome</h1>` (focusable, hence admitted). -/
def h1Elem : WebElement :=
  { tag_name := "h1", role := none, onclick := none, tabindex := some "0",
    className := none, aria_label := none, textContent := "Welcome",
    value := none, title := none, alt := none, id := none, typeAttr := none,
    displayed := true, enabled := true, displayedAtBuild := true, enabledAtBuild := true,
    probeFails := false, buildFails := false }

/-- A live page with a button and a focusable heading. -/
def pg : BrowserPage :=
  { url := "http://x", title := "T", domElements := [btnElem, h1Elem], pageInfoFails := false }

/-- A live page whose first qualifying element goes stale mid-capture. -/
def gapPg : BrowserPage :=
  { url := "http://x", title := "T", domElements := [staleElem, btnElem],
    pageInfoFails := false }

/-- The descriptor the capture of `pg` stores for the button. -/
def goInfo : ElementInfo := mkElementInfo 0 btnElem

/-- Deferred action of the fixture tool: succeeds, leaving the page and
the context as they are. -/
def navAct : BrowserPage → Ctx → (Except String String) × BrowserPage × Ctx :=
  fun p c => (Except.ok "done", p, c)

/-- `ToolResult` returned by the fixture tool's handler. -/
def navResult : ToolResultM :=
  { code := ["# nav"], action := some navAct, capture_snapshot := true }

/-- A fixture tool in the shape of the repository's action tools: one
required parameter, a handler with a deferred action and re-capture. -/
def navTool : ToolM :=
  { schema := { name := "navigate_to", input_schema := { required := ["url"] } }
    handle := fun ctx _ => Except.ok (navResult, ctx) }

/-- Valid arguments for `navTool`. -/
def navArgs : Params := [("url", ParamValue.str "http://x")]

/-- Python value lookup `params.<field>` for the string fields of an
argument object. -/
def paramStr (ps : Params) (k : String) : String :=
  match ps.find? (fun p => p.1 == k) with
  | some (_, ParamValue.str s) => s
  | _ => ""

/-- Deferred action of `ResetSessionTool` (`reset_session.py:29-69`):
after killing the automation browser processes (outside the modelled
state) it clears the context — `current_snapshot = None`,
`action_history.clear()`, `recording_enabled = False` — and returns a
status payload. -/
def reset_action : BrowserPage → Ctx → (Except String String) × BrowserPage × Ctx :=
  fun page ctx =>
    (Except.ok "Automation session reset complete - personal Chrome untouched", page,
      { ctx with
        current_snapshot := none
        action_history := []
        recording_enabled := false })

/-- The `ToolResult` returned by `ResetSessionTool.handle`
(`reset_session.py:71-79`). -/
def resetResult : ToolResultM :=
  { code := ["# Force reset automation browser session only",
      "# This kills only automation Chrome/ChromeDriver processes"],
    action := some reset_action, capture_snapshot := false }

/-- `reset_automation_session` (`reset_session.py:15-79`): the handler
mutates nothing synchronously; all context clearing happens inside the
deferred action. -/
def ResetSessionTool : ToolM :=
  { schema :=
      { name := "reset_automation_session"
        input_schema := { required := [] }
        tool_type := "destructive" }
    handle := fun ctx _ => Except.ok (resetResult, ctx) }

/-- `ClearRecordingTool.handle` (`recording.py:112-120`): clears the
history synchronously, no deferred action. -/
def ClearRecordingTool : ToolM :=
  { schema := { name := "clear_recording", input_schema := { required := [] } }
    handle := fun ctx _ => Except.ok
      ({ code := ["Cleared " ++ Nat.repr ctx.action_history.length ++ " recorded actions"],
         action := none, capture_snapshot := false },
       { ctx with action_history := [] }) }

/-- Deferred action of `GeneratorSetupTool` (`agents.py:1008-1037`) in a
run where the browser session is lost: after `driver.get(url)` it sets
`recording_enabled = True` and `action_history = []`, and then its
`context.capture_snapshot()` call raises — the `ensure_browser` call at
`context.py:157` sits outside capture's own `try` and raises when session
recreation fails — so the exception propagates out of the action with the
history already cleared. -/
def setup_action_browser_lost : BrowserPage → Ctx → (Except String String) × BrowserPage × Ctx :=
  fun page ctx =>
    (Except.error "session deleted as the browser has closed the connection", page,
      { ctx with recording_enabled := true, action_history := [] })

/-- `generator_setup_page` (`agents.py:995-1052`), in the browser-lost
run: required params `url`, `test_plan`, `framework`; handler builds the
code block from the params and defers all mutation to the action. -/
def GeneratorSetupTool : ToolM :=
  { schema :=
      { name := "generator_setup_page"
        input_schema := { required := ["url", "test_plan", "framework"] } }
    handle := fun ctx params => Except.ok
      ({ code := ["# Initialize test generation session",
          "# Target URL: " ++ paramStr params "url",
          "# Framework: " ++ paramStr params "framework",
          "# Action recording: ENABLED"],
         action := some setup_action_browser_lost,
         capture_snapshot := true, wait_for_network := true }, ctx) }

/-- Valid arguments for `GeneratorSetupTool`. -/
def genArgs : Params :=
  [("url", ParamValue.str "http://x"), ("test_plan", ParamValue.str "plan"),
    ("framework", ParamValue.str "robot-framework")]

/-- A fresh context. -/
def ctx0 : Ctx := { current_snapshot := none, action_history := [], recording_enabled := false }

/-- A non-recording context carrying one previously recorded entry
(the state after a `stop_recording`). -/
def ctxStopped : Ctx :=
  { current_snapshot := none,
    action_history := [{ tool := "click_element", params := [], timestamp := 1 }],
    recording_enabled := false }

/-- A context that is recording. -/
def ctxRec : Ctx := { current_snapshot := none, action_history := [], recording_enabled := true }

/-! ### Claim C1 -/

/-- C1 (counterexample to the claim as stated): on a page whose first
qualifying element goes stale between enumeration and descriptor
construction, the skip-and-continue at `context.py:228-229` leaves a gap —
the only captured reference is `e2`, so the references do not form the
dense sequence `e1..eN`. -/
theorem C1_counterexample :
    (capture_snapshot gapPg).elements.map Prod.fst = ["e2"]
    ∧ (capture_snapshot gapPg).elements.map Prod.fst ≠
        (List.range (capture_snapshot gapPg).elements.length).map mkRef :=
  ⟨by decide, by decide⟩

/-- C1 (amended): provided descriptor construction succeeds for every
retained element, the references of a captured snapshot are pairwise
distinct and form the dense 1-based sequence `e1..eN` in DOM traversal
order, `N ≤ 100`, and on a page with more than 100 qualifying interactive
elements exactly the first 100 in traversal order are retained. -/
theorem C1_references_dense_amended (page : BrowserPage)
    (hok : page.pageInfoFails = false)
    (hbuild : ∀ e ∈ (page.domElements.filter qualifies).take 100, e.buildFails = false) :
    (capture_snapshot page).elements =
      ((page.domElements.filter qualifies).take 100).enum.map
        (fun p => (mkRef p.1, mkElementInfo p.1 p.2))
    ∧ (capture_snapshot page).elements.map Prod.fst =
        (List.range (capture_snapshot page).elements.length).map mkRef
    ∧ ((capture_snapshot page).elements.map Prod.fst).Nodup
    ∧ (capture_snapshot page).elements.length ≤ 100
    ∧ (100 < (page.domElements.filter qualifies).length →
        (capture_snapshot page).elements.length = 100) := by
  have hsnap : (capture_snapshot page).elements =
      buildSnapshotElements ((page.domElements.filter qualifies).take 100) := by
    simp [capture_snapshot, captureBody, hok]
  have hEmap : buildSnapshotElements ((page.domElements.filter qualifies).take 100) =
      ((page.domElements.filter qualifies).take 100).enum.map
        (fun p => (mkRef p.1, mkElementInfo p.1 p.2)) := by
    rw [buildSnapshotElements]
    apply filterMap_eq_map_of_forall
    intro p hp
    have hmem : p.2 ∈ (page.domElements.filter qualifies).take 100 :=
      snd_mem_of_mem_enumFrom _ 0 p (by rwa [← List.enum_eq_enumFrom])
    simp [hbuild p.2 hmem]
  have hrefs : (((page.domElements.filter qualifies).take 100).enum.map
        (fun p => (mkRef p.1, mkElementInfo p.1 p.2))).map Prod.fst
      = (List.range ((page.domElements.filter qualifies).take 100).length).map mkRef := by
    rw [List.map_map]
    have hcomp : (Prod.fst ∘ fun p : Nat × WebElement => (mkRef p.1, mkElementInfo p.1 p.2))
        = mkRef ∘ Prod.fst := rfl
    rw [hcomp, ← List.map_map, enum_map_fst_eq_range]
  have hlen : (capture_snapshot page).elements.length =
      min 100 (page.domElements.filter qualifies).length := by
    rw [hsnap, hEmap, List.length_map, List.enum_eq_enumFrom, List.enumFrom_length,
      List.length_take]
  refine ⟨?_, ?_, ?_, ?_, ?_⟩
  · rw [hsnap]; exact hEmap
  · rw [hsnap, hEmap, hrefs, List.length_map, List.enum_eq_enumFrom, List.enumFrom_length]
  · rw [hsnap, hEmap, hrefs]
    exact (List.nodup_range _).map mkRef_injective
  · rw [hlen]; omega
  · intro hgt; rw [hlen]; omega

/-- Witness for the amended C1 at the concrete page `pg`. -/
theorem C1_references_dense_amended_witness :
    pg.pageInfoFails = false
    ∧ (∀ e ∈ (pg.domElements.filter qualifies).take 100, e.buildFails = false)
    ∧ (capture_snapshot pg).elements.map Prod.fst = ["e1", "e2"]
    ∧ ((capture_snapshot pg).elements.map Prod.fst).Nodup :=
  ⟨by decide, by decide, by decide,
    (C1_references_dense_amended pg (by decide) (by decide)).2.2.1⟩

/-! ### Claim C2 -/

/-- C2: if the browser capability throws while reading the page URL/title
or during element enumeration (the outer `try` of `capture_snapshot`),
capture completes — the underlying body yields an error that is caught —
and the context's current snapshot is replaced by the empty-element
snapshot. -/
theorem C2_graceful_empty_capture (ctx : Ctx) (page : BrowserPage)
    (hfail : page.pageInfoFails = true) :
    (∃ e, captureBody page = Except.error e)
    ∧ capture_snapshot page = emptySnapshot
    ∧ (ctx.capture page).current_snapshot = some emptySnapshot
    ∧ emptySnapshot.elements = [] := by
  refine ⟨⟨"invalid session", ?_⟩, ?_, ?_, rfl⟩
  · simp [captureBody, hfail]
  · simp [capture_snapshot, captureBody, hfail]
  · simp [Ctx.capture, capture_snapshot, captureBody, hfail]

/-- Witness for C2 at a concrete page whose URL/title read throws. -/
theorem C2_graceful_empty_capture_witness :
    ({ url := "", title := "", domElements := [btnElem],
       pageInfoFails := true } : BrowserPage).pageInfoFails = true
    ∧ capture_snapshot
        { url := "", title := "", domElements := [btnElem], pageInfoFails := true }
        = emptySnapshot :=
  ⟨by decide,
    (C2_graceful_empty_capture ctx0
      { url := "", title := "", domElements := [btnElem], pageInfoFails := true }
      (by decide)).2.1⟩

/-! ### Claim C3 -/

/-- C3: resolver precedence (`context.py:41-78`): id first, then tag+text
containment, then tag+role, then tag+classes, first satisfied wins; in
particular a descriptor with non-empty id and non-empty accessible text
resolves to the id-based locator and never to an XPath (text-based)
locator. -/
theorem C3_resolver_precedence (snap : PageSnapshot) (ref : String) (info : ElementInfo)
    (hlook : dictGet snap.elements ref = some info) :
    (info.attributes.id ≠ "" →
        snap.ref_locator ref = (By.ID, info.attributes.id))
    ∧ (info.attributes.id ≠ "" → pyTruthy info.text = true →
        snap.ref_locator ref = (By.ID, info.attributes.id)
        ∧ ∀ v, snap.ref_locator ref ≠ (By.XPATH, v))
    ∧ (info.attributes.id = "" → ∀ t, info.text = some t → t ≠ "" →
        snap.ref_locator ref = (By.XPATH, textXpath info.tag_name t))
    ∧ (info.attributes.id = "" → pyTruthy info.text = false → info.attributes.role ≠ "" →
        snap.ref_locator ref = (By.XPATH, roleXpath info.tag_name info.attributes.role))
    ∧ (info.attributes.id = "" → pyTruthy info.text = false → info.attributes.role = "" →
        info.css_classes ≠ [] →
        snap.ref_locator ref =
          (By.CSS_SELECTOR, classSelector info.tag_name info.css_classes)) := by
  have hmain : info.attributes.id ≠ "" →
      snap.ref_locator ref = (By.ID, info.attributes.id) := by
    intro hid
    simp [PageSnapshot.ref_locator, hlook, hid]
  refine ⟨hmain, ?_, ?_, ?_, ?_⟩
  · intro hid _
    refine ⟨hmain hid, ?_⟩
    intro v hcontra
    rw [hmain hid] at hcontra
    simp at hcontra
  · intro hid t ht htne
    simp [PageSnapshot.ref_locator, hlook, hid, ht, htne]
  · intro hid htext hrole
    cases hs : info.text with
    | none => simp [PageSnapshot.ref_locator, hlook, hid, hs, hrole]
    | some t =>
      rw [hs] at htext
      have ht0 : t = "" := by simpa [pyTruthy] using htext
      simp [PageSnapshot.ref_locator, hlook, hid, hs, ht0, hrole]
  · intro hid htext hrole hcls
    cases hs : info.text with
    | none => simp [PageSnapshot.ref_locator, hlook, hid, hs, hrole, hcls]
    | some t =>
      rw [hs] at htext
      have ht0 : t = "" := by simpa [pyTruthy] using htext
      simp [PageSnapshot.ref_locator, hlook, hid, hs, ht0, hrole, hcls]

/-- Witness for C3: on the captured button descriptor (id "go", text "Go")
the resolver picks the id locator. -/
theorem C3_resolver_precedence_witness :
    dictGet (capture_snapshot pg).elements "e1" = some goInfo
    ∧ goInfo.attributes.id ≠ "" ∧ pyTruthy goInfo.text = true
    ∧ (capture_snapshot pg).ref_locator "e1" = (By.ID, "go") :=
  ⟨by decide, by decide, by decide,
    ((C3_resolver_precedence (capture_snapshot pg) "e1" goInfo (by decide)).2.1
      (by decide) (by decide)).1⟩

/-! ### Claim C4 -/

/-- C4: resolution is a total function of the stored snapshot — it always
returns a (strategy, value) pair — and an unknown reference resolves to
the synthetic `data-ref` attribute selector. -/
theorem C4_resolver_total_fail_soft (snap : PageSnapshot) (ref : String) :
    (∃ b v, snap.ref_locator ref = (b, v))
    ∧ (dictGet snap.elements ref = none →
        snap.ref_locator ref = (By.CSS_SELECTOR, dataRefSelector ref)) := by
  constructor
  · exact ⟨(snap.ref_locator ref).1, (snap.ref_locator ref).2, rfl⟩
  · intro h
    simp [PageSnapshot.ref_locator, h]

/-- Witness for C4 at a reference absent from the concrete snapshot. -/
theorem C4_resolver_total_fail_soft_witness :
    dictGet (capture_snapshot pg).elements "e99" = none
    ∧ (capture_snapshot pg).ref_locator "e99" = (By.CSS_SELECTOR, "[data-ref='e99']") :=
  ⟨by decide, (C4_resolver_total_fail_soft (capture_snapshot pg) "e99").2 (by decide)⟩

/-! ### Claim C9 -/

theorem disabled_not_mem_elementProps (ref : String) (el : ElementInfo)
    (hclick : el.is_clickable = true) : "[disabled]" ∉ elementProps ref el := by
  intro hmem
  rw [elementProps, hclick] at hmem
  simp only [Bool.not_true, Bool.false_eq_true, if_false, List.append_nil,
    List.mem_append, List.mem_singleton] at hmem
  rcases hmem with h | h
  · exact refProp_ne_disabled ref h.symm
  · by_cases hrole : el.attributes.role ≠ ""
    · rw [if_pos hrole] at h
      rw [List.mem_singleton] at h
      exact roleProp_ne_disabled el.attributes.role h.symm
    · rw [if_neg hrole] at h
      exact absurd h (List.not_mem_nil _)

/-- C9: an element admitted into a captured snapshot passed the
displayed-and-enabled filter, so if its displayed/enabled state is the
same when the descriptor is built, the stored `is_clickable` flag is true
and the rendered line's props never include the `[disabled]` marker. -/
theorem C9_captured_elements_interactable (page : BrowserPage)
    (hstable : ∀ e ∈ page.domElements,
      e.displayedAtBuild = e.displayed ∧ e.enabledAtBuild = e.enabled)
    (ref : String) (info : ElementInfo)
    (hmem : (ref, info) ∈ (capture_snapshot page).elements) :
    info.is_clickable = true ∧ "[disabled]" ∉ elementProps ref info := by
  by_cases hfail : page.pageInfoFails
  · rw [show capture_snapshot page = emptySnapshot by
      simp [capture_snapshot, captureBody, hfail]] at hmem
    exact absurd hmem (List.not_mem_nil _)
  · have hsnap : (capture_snapshot page).elements =
        buildSnapshotElements ((page.domElements.filter qualifies).take 100) := by
      simp [capture_snapshot, captureBody, hfail]
    rw [hsnap, buildSnapshotElements] at hmem
    rcases List.mem_filterMap.mp hmem with ⟨p, hp, hpeq⟩
    by_cases hbf : p.2.buildFails
    · rw [if_pos hbf] at hpeq
      exact absurd hpeq (by simp)
    · rw [if_neg hbf] at hpeq
      injection hpeq with hpair
      injection hpair with href hinfo
      have hmemtake : p.2 ∈ (page.domElements.filter qualifies).take 100 :=
        snd_mem_of_mem_enumFrom _ 0 p (by rwa [← List.enum_eq_enumFrom])
      have hmemfilter : p.2 ∈ page.domElements.filter qualifies :=
        List.mem_of_mem_take hmemtake
      rcases List.mem_filter.mp hmemfilter with ⟨hmemdom, hqual⟩
      have hq : p.2.displayed = true ∧ p.2.enabled = true := by
        rw [qualifies] at hqual
        simp only [Bool.and_eq_true, Bool.not_eq_true', decide_eq_true_eq] at hqual
        exact ⟨hqual.2.2.1, hqual.2.2.2⟩
      obtain ⟨hd, he⟩ := hstable p.2 hmemdom
      have hclick : info.is_clickable = true := by
        rw [← hinfo]
        show (p.2.enabledAtBuild && p.2.displayedAtBuild) = true
        rw [hd, he, hq.1, hq.2]
        rfl
      exact ⟨hclick, disabled_not_mem_elementProps ref info hclick⟩

/-- Witness for C9 on the concrete stable page `pg`: the captured button
descriptor is interactable and its props carry no `[disabled]`. -/
theorem C9_captured_elements_interactable_witness :
    (∀ e ∈ pg.domElements, e.displayedAtBuild = e.displayed ∧ e.enabledAtBuild = e.enabled)
    ∧ ("e1", goInfo) ∈ (capture_snapshot pg).elements
    ∧ goInfo.is_clickable = true :=
  ⟨by decide, by decide,
    (C9_captured_elements_interactable pg (by decide) "e1" goInfo (by decide)).1⟩

/-! ### Claim C5 -/

/-- C5: when the argument object misses a required field, `run_tool`
returns the structured failure carrying the tool name and the validation
message, leaves the context untouched, and the handler (hence the
deferred action) is never invoked — the outcome is identical for every
possible handler. -/
theorem C5_validation_isolation (page : BrowserPage) (now : Nat) (tool : ToolM)
    (arguments : Params) (ctx : Ctx) (f : String)
    (hreq : f ∈ tool.schema.input_schema.required)
    (hmiss : arguments.all (fun p => p.1 ≠ f) = true) :
    ∃ msg, tool.schema.validate_params arguments = Except.error msg
    ∧ run_tool page now tool arguments ctx =
        (RunResponse.failure ("❌ " ++ tool.schema.name ++ " failed: " ++ msg) msg, ctx)
    ∧ strContains ("❌ " ++ tool.schema.name ++ " failed: " ++ msg) tool.schema.name = true
    ∧ strContains ("❌ " ++ tool.schema.name ++ " failed: " ++ msg) msg = true
    ∧ (∀ h2 : Ctx → Params → Except String (ToolResultM × Ctx),
        run_tool page now { tool with handle := h2 } arguments ctx =
          run_tool page now tool arguments ctx) := by
  have hpred : (fun g => !(arguments.any (fun p => p.1 == g))) f = true := by
    rw [List.all_eq_true] at hmiss
    simp only [Bool.not_eq_true']
    rw [List.any_eq_false]
    intro p hp
    simpa using hmiss p hp
  have hsome : (missingRequired tool.schema.input_schema arguments).isSome := by
    rw [missingRequired, List.find?_isSome]
    exact ⟨f, hreq, hpred⟩
  rcases Option.isSome_iff_exists.mp hsome with ⟨f0, hfind⟩
  refine ⟨"Invalid parameters for " ++ tool.schema.name ++ ": "
    ++ (f0 ++ "\n  Field required"), ?_, ?_, ?_, ?_, ?_⟩
  · rw [ToolSchemaM.validate_params, InputSchema.build, hfind]
  · rw [run_tool, ToolSchemaM.validate_params, InputSchema.build, hfind]
  · have h := strContains_append "❌ " tool.schema.name
      (" failed: " ++ ("Invalid parameters for " ++ tool.schema.name ++ ": "
        ++ (f0 ++ "\n  Field required")))
    rwa [← String.append_assoc] at h
  · have h := strContains_append ("❌ " ++ tool.schema.name ++ " failed: ")
      ("Invalid parameters for " ++ tool.schema.name ++ ": "
        ++ (f0 ++ "\n  Field required")) ""
    rwa [String.append_empty] at h
  · intro h2
    rw [run_tool, run_tool, ToolSchemaM.validate_params, InputSchema.build, hfind]

/-- Witness for C5: invoking the fixture tool with an empty argument
object (missing its required `url`). -/
theorem C5_validation_isolation_witness :
    "url" ∈ navTool.schema.input_schema.required
    ∧ ([] : Params).all (fun p => p.1 ≠ "url") = true
    ∧ ∃ msg, navTool.schema.validate_params [] = Except.error msg
      ∧ run_tool pg 5 navTool [] ctx0 =
          (RunResponse.failure ("❌ " ++ navTool.schema.name ++ " failed: " ++ msg) msg, ctx0)
      ∧ strContains ("❌ " ++ navTool.schema.name ++ " failed: " ++ msg)
          navTool.schema.name = true
      ∧ strContains ("❌ " ++ navTool.schema.name ++ " failed: " ++ msg) msg = true
      ∧ (∀ h2 : Ctx → Params → Except String (ToolResultM × Ctx),
          run_tool pg 5 { navTool with handle := h2 } [] ctx0 =
            run_tool pg 5 navTool [] ctx0) :=
  ⟨by decide, by decide,
    C5_validation_isolation pg 5 navTool [] ctx0 "url" (by decide) (by decide)⟩

/-! ### Claim C6 -/

/-- C6 (counterexample to the claim as stated): `run_tool`'s own snapshot
rendering (`context.py:300-312`) never appends heading level markers —
those exist only in the snapshot tool's separate rendering
(`snapshot.py:74-80`).  Running a capture-refreshing tool on a page whose
snapshot contains an `h1` element yields a response text with an `h1`
line but no `[level=` marker. -/
theorem C6_counterexample :
    ((capture_snapshot pg).elements.any (fun p => p.2.tag_name == "h1")) = true
    ∧ strContains (responseText (run_tool pg 5 navTool navArgs ctx0).1) "- h1" = true
    ∧ strContains (responseText (run_tool pg 5 navTool navArgs ctx0).1) "[level=" = false :=
  ⟨by decide, by decide, by decide⟩

/-- C6 (amended): whenever `run_tool` executes a deferred action that
requests a snapshot refresh, the assembled response text is the join of
the confirmation block and the page-state block, which contains the page
URL line, the page title line, and one line per element exactly in the
spec's grammar `- <tag> "<text>" [ref=..] [role=..] [disabled]` — but no
heading level markers are added in this rendering (they appear only in
the snapshot tool's own rendering). -/
theorem C6_response_rendering_amended (page : BrowserPage) (now : Nat) (tool : ToolM)
    (arguments params : Params) (ctx : Ctx) (result : ToolResultM) (ctx2 : Ctx)
    (act : BrowserPage → Ctx → (Except String String) × BrowserPage × Ctx)
    (action_result : String) (page2 : BrowserPage) (ctxA : Ctx)
    (hval : tool.schema.validate_params arguments = Except.ok params)
    (hhandle : tool.handle (record_action ctx tool.schema.name arguments now) params
        = Except.ok (result, ctx2))
    (haction : result.action = some act)
    (hcap : result.capture_snapshot = true)
    (hrun : act page ctx2 = (Except.ok action_result, page2, ctxA)) :
    (run_tool page now tool arguments ctx).1 =
      RunResponse.withAction
        (pyJoin "\n"
          (runHeaderLines result.code ++ pageStateLines (capture_snapshot page2)))
        result.code action_result
    ∧ ("- Page URL: " ++ (capture_snapshot page2).url)
        ∈ runHeaderLines result.code ++ pageStateLines (capture_snapshot page2)
    ∧ ("- Page Title: " ++ (capture_snapshot page2).title)
        ∈ runHeaderLines result.code ++ pageStateLines (capture_snapshot page2)
    ∧ (∀ p ∈ (capture_snapshot page2).elements,
        specElementLine p.1 p.2
          ∈ runHeaderLines result.code ++ pageStateLines (capture_snapshot page2))
    ∧ (∀ r el, elementLine r el = specElementLine r el) := by
  refine ⟨?_, ?_, ?_, ?_, fun r el => rfl⟩
  · simp [run_tool, hval, hhandle, haction, hcap, hrun, Ctx.capture]
  · apply List.mem_append_right
    rw [pageStateLines]
    simp
  · apply List.mem_append_right
    rw [pageStateLines]
    simp
  · intro p hp
    apply List.mem_append_right
    rw [pageStateLines]
    apply List.mem_append_left
    apply List.mem_append_right
    have : specElementLine p.1 p.2 = elementLine p.1 p.2 := rfl
    rw [this]
    exact List.mem_map_of_mem (fun q => elementLine q.1 q.2) hp

/-- Witness for the amended C6 with the fixture tool on the concrete page. -/
theorem C6_response_rendering_amended_witness :
    navTool.schema.validate_params navArgs = Except.ok navArgs
    ∧ navTool.handle (record_action ctx0 navTool.schema.name navArgs 5) navArgs
        = Except.ok (navResult, ctx0)
    ∧ navResult.action = some navAct
    ∧ navResult.capture_snapshot = true
    ∧ navAct pg ctx0 = (Except.ok "done", pg, ctx0)
    ∧ ("- Page URL: " ++ (capture_snapshot pg).url)
        ∈ runHeaderLines navResult.code ++ pageStateLines (capture_snapshot pg) :=
  ⟨rfl, rfl, rfl, rfl, rfl,
    (C6_response_rendering_amended pg 5 navTool navArgs navArgs ctx0 navResult ctx0
      navAct "done" pg ctx0 rfl rfl rfl rfl rfl).2.1⟩

/-! ### Claims C7, C8, C10 -/

/-- After successful validation, if the tool's handler and deferred
action both leave the action history exactly as they found it, the final
history is the one left by the `record_action` call that precedes
execution. -/
theorem run_tool_history_eq_recorded (page : BrowserPage) (now : Nat) (tool : ToolM)
    (arguments params : Params) (ctx : Ctx)
    (hval : tool.schema.validate_params arguments = Except.ok params)
    (hhandle_pres : ∀ c p r c2, tool.handle c p = Except.ok (r, c2) →
      c2.action_history = c.action_history)
    (haction_pres : ∀ c p r c2 act pg2 c3, tool.handle c p = Except.ok (r, c2) →
      r.action = some act →
      ((act pg2 c3).2.2).action_history = c3.action_history) :
    (run_tool page now tool arguments ctx).2.action_history =
      (record_action ctx tool.schema.name arguments now).action_history := by
  cases hh : tool.handle (record_action ctx tool.schema.name arguments now) params with
  | error e => simp [run_tool, hval, hh]
  | ok rc =>
    obtain ⟨result, ctx2⟩ := rc
    have hc2 := hhandle_pres _ _ _ _ hh
    cases ha : result.action with
    | none => simp [run_tool, hval, hh, ha, hc2]
    | some act =>
      have hactA := haction_pres _ _ _ _ act page ctx2 hh ha
      cases hres : (act page ctx2).1 with
      | error e => simp [run_tool, hval, hh, ha, hres, hactA, hc2]
      | ok v =>
        by_cases hcap : result.capture_snapshot = true
        · simp [run_tool, hval, hh, ha, hres, hcap, Ctx.capture, hactA, hc2]
        · simp [run_tool, hval, hh, ha, hres, hcap, hactA, hc2]

/-- After successful validation, if the tool's handler and deferred
action only ever remove history entries (as every tool in the repository
does — `recording.py:38,115`, `reset_session.py:65`,
`agents.py:1014,1143` clear, nothing appends), the final history is a
sublist of the one left by `record_action`: no new entry appears. -/
theorem run_tool_history_sublist_recorded (page : BrowserPage) (now : Nat) (tool : ToolM)
    (arguments params : Params) (ctx : Ctx)
    (hval : tool.schema.validate_params arguments = Except.ok params)
    (hhandle_sub : ∀ c p r c2, tool.handle c p = Except.ok (r, c2) →
      c2.action_history.Sublist c.action_history)
    (haction_sub : ∀ c p r c2 act pg2 c3, tool.handle c p = Except.ok (r, c2) →
      r.action = some act →
      ((act pg2 c3).2.2).action_history.Sublist c3.action_history) :
    ((run_tool page now tool arguments ctx).2.action_history).Sublist
      (record_action ctx tool.schema.name arguments now).action_history := by
  cases hh : tool.handle (record_action ctx tool.schema.name arguments now) params with
  | error e =>
    have heq : (run_tool page now tool arguments ctx).2 =
        record_action ctx tool.schema.name arguments now := by
      simp [run_tool, hval, hh]
    rw [heq]
  | ok rc =>
    obtain ⟨result, ctx2⟩ := rc
    have hc2 := hhandle_sub _ _ _ _ hh
    cases ha : result.action with
    | none =>
      have heq : (run_tool page now tool arguments ctx).2 = ctx2 := by
        simp [run_tool, hval, hh, ha]
      rw [heq]; exact hc2
    | some act =>
      have hactA := haction_sub _ _ _ _ act page ctx2 hh ha
      cases hres : (act page ctx2).1 with
      | error e =>
        have heq : (run_tool page now tool arguments ctx).2 = (act page ctx2).2.2 := by
          simp [run_tool, hval, hh, ha, hres]
        rw [heq]; exact hactA.trans hc2
      | ok v =>
        by_cases hcap : result.capture_snapshot = true
        · have heq : (run_tool page now tool arguments ctx).2.action_history =
              ((act page ctx2).2.2).action_history := by
            simp [run_tool, hval, hh, ha, hres, hcap, Ctx.capture]
          rw [heq]; exact hactA.trans hc2
        · have heq : (run_tool page now tool arguments ctx).2 = (act page ctx2).2.2 := by
            simp [run_tool, hval, hh, ha, hres, hcap]
          rw [heq]; exact hactA.trans hc2

/-- C7 (counterexample to the claim as stated): with recording enabled
and valid arguments, running `generator_setup_page` in the run where the
browser session dies mid-action leaves an *empty* history — the deferred
action reassigns `action_history = []` (`agents.py:1014`) before its
`capture_snapshot` call raises through `ensure_browser`
(`context.py:157`), so the recorded entry does NOT survive the failing
deferred action. -/
theorem C7_counterexample :
    ctxRec.recording_enabled = true
    ∧ GeneratorSetupTool.schema.validate_params genArgs = Except.ok genArgs
    ∧ (run_tool pg 5 GeneratorSetupTool genArgs ctxRec).1 =
        RunResponse.failure
          ("❌ generator_setup_page failed: session deleted as the browser has closed the connection")
          "session deleted as the browser has closed the connection"
    ∧ (run_tool pg 5 GeneratorSetupTool genArgs ctxRec).2.action_history = [] :=
  ⟨rfl, rfl, by decide, rfl⟩

/-- C7 (amended): with recording enabled and validation successful,
`run_tool` appends one history entry carrying the tool name and the raw
(pre-validation) arguments before the handler and deferred action run —
the context they receive already contains it — and the entry is still
there after `run_tool`, whatever the outcome, for every tool whose
handler and deferred action leave the history alone; tools whose
deferred action clears the history (the generator tools, session reset)
can erase it. -/
theorem C7_record_before_execution_amended (page : BrowserPage) (now : Nat) (tool : ToolM)
    (arguments params : Params) (ctx : Ctx)
    (hrec : ctx.recording_enabled = true)
    (hval : tool.schema.validate_params arguments = Except.ok params)
    (hhandle_pres : ∀ c p r c2, tool.handle c p = Except.ok (r, c2) →
      c2.action_history = c.action_history)
    (haction_pres : ∀ c p r c2 act pg2 c3, tool.handle c p = Except.ok (r, c2) →
      r.action = some act →
      ((act pg2 c3).2.2).action_history = c3.action_history) :
    (record_action ctx tool.schema.name arguments now).action_history =
      ctx.action_history ++
        [{ tool := tool.schema.name, params := arguments, timestamp := now }]
    ∧ (run_tool page now tool arguments ctx).2.action_history =
      ctx.action_history ++
        [{ tool := tool.schema.name, params := arguments, timestamp := now }] := by
  have hrecd : (record_action ctx tool.schema.name arguments now).action_history =
      ctx.action_history ++
        [{ tool := tool.schema.name, params := arguments, timestamp := now }] := by
    simp [record_action, hrec]
  refine ⟨hrecd, ?_⟩
  rw [run_tool_history_eq_recorded page now tool arguments params ctx hval
    hhandle_pres haction_pres]
  exact hrecd

/-- Witness for the amended C7: a recording context, the fixture tool
(whose handler and action leave the history alone), concrete arguments;
the single appended entry carries the raw arguments. -/
theorem C7_record_before_execution_amended_witness :
    ctxRec.recording_enabled = true
    ∧ navTool.schema.validate_params navArgs = Except.ok navArgs
    ∧ (run_tool pg 5 navTool navArgs ctxRec).2.action_history =
        [{ tool := "navigate_to", params := navArgs, timestamp := 5 }] := by
  refine ⟨rfl, rfl, ?_⟩
  have h := C7_record_before_execution_amended pg 5 navTool navArgs navArgs ctxRec rfl rfl
    (fun c p r c2 hh => by
      injection hh with h2
      injection h2 with ha hb
      rw [← hb])
    (fun c p r c2 act pg2 c3 hh hact => by
      injection hh with h2
      injection h2 with ha hb
      rw [← ha] at hact
      have h3 : some navAct = some act := hact
      injection h3 with h4
      rw [← h4]
      rfl)
  exact h.2.trans (by decide)

/-- C8: `start_recording` clears the history and enables recording;
`stop_recording` disables recording and retains the history; and with
recording disabled, `run_tool` appends no new history entry — for every
tool whose handler and deferred action only ever remove entries (true of
every repository tool: the only history writes outside `record_action`
are clears), the final history is a sublist of the prior one. -/
theorem C8_recording_lifecycle :
    (∀ ctx : Ctx, (start_recording_handle ctx).2.recording_enabled = true
      ∧ (start_recording_handle ctx).2.action_history = [])
    ∧ (∀ ctx : Ctx, (stop_recording_handle ctx).2.recording_enabled = false
      ∧ (stop_recording_handle ctx).2.action_history = ctx.action_history)
    ∧ (∀ (page : BrowserPage) (now : Nat) (tool : ToolM) (arguments : Params) (ctx : Ctx),
        ctx.recording_enabled = false →
        (∀ c p r c2, tool.handle c p = Except.ok (r, c2) →
          c2.action_history.Sublist c.action_history) →
        (∀ c p r c2 act pg2 c3, tool.handle c p = Except.ok (r, c2) →
          r.action = some act →
          ((act pg2 c3).2.2).action_history.Sublist c3.action_history) →
        ((run_tool page now tool arguments ctx).2.action_history).Sublist
          ctx.action_history) := by
  refine ⟨fun ctx => ⟨rfl, rfl⟩, fun ctx => ⟨rfl, rfl⟩, ?_⟩
  intro page now tool arguments ctx hrec hhandle_sub haction_sub
  cases hv : tool.schema.validate_params arguments with
  | error e =>
    have heq : (run_tool page now tool arguments ctx).2 = ctx := by
      simp [run_tool, hv]
    rw [heq]
  | ok params =>
    have h := run_tool_history_sublist_recorded page now tool arguments params ctx hv
      hhandle_sub haction_sub
    have hrecd : record_action ctx tool.schema.name arguments now = ctx := by
      simp [record_action, hrec]
    rwa [hrecd] at h

/-- Witness for C8: start clears, stop disables; and invoking the
history-clearing `reset_automation_session` and `clear_recording` tools
on a stopped context with one recorded entry appends nothing — the final
history is a sublist of the prior one (here: emptied, never extended). -/
theorem C8_recording_lifecycle_witness :
    (start_recording_handle ctxRec).2.action_history = []
    ∧ (start_recording_handle ctxRec).2.recording_enabled = true
    ∧ (stop_recording_handle ctxRec).2.recording_enabled = false
    ∧ (stop_recording_handle ctxRec).2.action_history = ctxRec.action_history
    ∧ ((run_tool pg 7 ResetSessionTool [] ctxStopped).2.action_history).Sublist
        ctxStopped.action_history
    ∧ ((run_tool pg 7 ClearRecordingTool [] ctxStopped).2.action_history).Sublist
        ctxStopped.action_history :=
  ⟨(C8_recording_lifecycle.1 ctxRec).2,
    (C8_recording_lifecycle.1 ctxRec).1,
    (C8_recording_lifecycle.2.1 ctxRec).1,
    (C8_recording_lifecycle.2.1 ctxRec).2,
    C8_recording_lifecycle.2.2 pg 7 ResetSessionTool [] ctxStopped rfl
      (fun c p r c2 hh => by
        have hh2 : Except.ok (resetResult, c) = Except.ok (r, c2) := hh
        injection hh2 with h2
        injection h2 with ha hb
        rw [← hb])
      (fun c p r c2 act pg2 c3 hh hact => by
        have hh2 : Except.ok (resetResult, c) = Except.ok (r, c2) := hh
        injection hh2 with h2
        injection h2 with ha hb
        rw [← ha] at hact
        have h3 : some reset_action = some act := hact
        injection h3 with h4
        rw [← h4]
        exact List.nil_sublist _),
    C8_recording_lifecycle.2.2 pg 7 ClearRecordingTool [] ctxStopped rfl
      (fun c p r c2 hh => by
        simp only [ClearRecordingTool, Except.ok.injEq, Prod.mk.injEq] at hh
        rw [← hh.2]
        exact List.nil_sublist _)
      (fun c p r c2 act pg2 c3 hh hact => by
        simp only [ClearRecordingTool, Except.ok.injEq, Prod.mk.injEq] at hh
        rw [← hh.1] at hact
        simp at hact)⟩

/-- C10: if recording is enabled but validation fails, `run_tool` returns
with the context — in particular the action history — unchanged. -/
theorem C10_no_record_on_validation_error (page : BrowserPage) (now : Nat) (tool : ToolM)
    (arguments : Params) (ctx : Ctx) (e : String)
    (hrec : ctx.recording_enabled = true)
    (hval : tool.schema.validate_params arguments = Except.error e) :
    (run_tool page now tool arguments ctx).2 = ctx
    ∧ (run_tool page now tool arguments ctx).2.action_history = ctx.action_history := by
  have h : (run_tool page now tool arguments ctx).2 = ctx := by
    simp [run_tool, hval]
  exact ⟨h, by rw [h]⟩

/-- Witness for C10: a recording context and arguments missing the
required field; the history stays empty. -/
theorem C10_no_record_on_validation_error_witness :
    ctxRec.recording_enabled = true
    ∧ navTool.schema.validate_params [] =
        Except.error "Invalid parameters for navigate_to: url\n  Field required"
    ∧ (run_tool pg 5 navTool [] ctxRec).2.action_history = ctxRec.action_history :=
  ⟨rfl, rfl,
    (C10_no_record_on_validation_error pg 5 navTool [] ctxRec
      "Invalid parameters for navigate_to: url\n  Field required" rfl rfl).2⟩

end SeleniumMcp
